import Mathlib

/-!
Shallow embedding of the presales haul-calculator core, over exact rational
arithmetic (ℚ in place of IEEE doubles, with the algebra the spec describes):

* `src/src/core/haulCycleTime.ts` — `calculateHaulCycleTime`, `calculateFleetSize`
* `src/src/core/haulProductivity.ts` — `calculateHaulProductivity`
* `src/src/lib/cost/calcCost.ts` — `calcCostBreakdown`

Zod schema validation is embedded as `Except String`-returning parse steps that
reject exactly the inputs the schemas reject (first failing check, in schema
order), with messages naming the offending field as in the source.
-/

set_option maxHeartbeats 1000000

namespace Presales

/-! ## Haul cycle time (`haulCycleTime.ts`, `HaulCycleTimeInputSchema` / `calculateHaulCycleTime`) -/

structure HaulCycleTimeInput where
  distanceLoaded : ℚ
  distanceUnloaded : ℚ
  speedLoaded : ℚ
  speedUnloaded : ℚ
  loadingTime : ℚ
  unloadingTime : ℚ
deriving DecidableEq

structure HaulCycleTimeResult where
  cycleTimeSeconds : ℚ
deriving DecidableEq

/-- Embedding of `HaulCycleTimeInputSchema.parse`: distances must be integers ≥ 0
(zod `z.number().int().min(0)`), speeds > 0, loading/unloading times > 0. -/
def haulCycleTimeParse (i : HaulCycleTimeInput) : Except String HaulCycleTimeInput :=
  if i.distanceLoaded.isInt = false then .error "distanceLoaded: Expected integer"
  else if i.distanceLoaded < 0 then .error "distanceLoaded: must be greater than or equal to 0"
  else if i.distanceUnloaded.isInt = false then .error "distanceUnloaded: Expected integer"
  else if i.distanceUnloaded < 0 then .error "distanceUnloaded: must be greater than or equal to 0"
  else if i.speedLoaded ≤ 0 then .error "speedLoaded: must be greater than 0"
  else if i.speedUnloaded ≤ 0 then .error "speedUnloaded: must be greater than 0"
  else if i.loadingTime ≤ 0 then .error "loadingTime: must be greater than 0"
  else if i.unloadingTime ≤ 0 then .error "unloadingTime: must be greater than 0"
  else .ok i

/-- Embedding of `calculateHaulCycleTime` (haulCycleTime.ts lines 29–54). -/
def calculateHaulCycleTime (input : HaulCycleTimeInput) : Except String HaulCycleTimeResult := do
  let x ← haulCycleTimeParse input
  let speedLoadedMs := x.speedLoaded * 1000 / 3600
  let speedUnloadedMs := x.speedUnloaded * 1000 / 3600
  let loadedTravelTime := if speedLoadedMs > 0 then x.distanceLoaded / speedLoadedMs else 0
  let unloadedTravelTime := if speedUnloadedMs > 0 then x.distanceUnloaded / speedUnloadedMs else 0
  let cycleTimeSeconds := loadedTravelTime + unloadedTravelTime + x.loadingTime + x.unloadingTime
  return { cycleTimeSeconds := cycleTimeSeconds }

/-! ## Fleet sizing (`haulCycleTime.ts` second module, `FleetSizingInputSchema` / `calculateFleetSize`) -/

structure FleetSizingInput where
  totalMineTonnesPerYear : Option ℚ
  tonnesPerTruckYear : ℚ
deriving DecidableEq

structure FleetSizingResult where
  rawTrucks : ℚ
  trucksRequired : ℤ
deriving DecidableEq

/-- Embedding of `FleetSizingInputSchema.parse`: `totalMineTonnesPerYear` is
optional with default 5,000,000 and must be ≥ 0; `tonnesPerTruckYear` must be > 0.
Returns the validated (defaulted) pair. -/
def fleetSizingParse (i : FleetSizingInput) : Except String (ℚ × ℚ) :=
  let total := i.totalMineTonnesPerYear.getD 5000000
  if total < 0 then .error "totalMineTonnesPerYear: must be greater than or equal to 0"
  else if i.tonnesPerTruckYear ≤ 0 then .error "tonnesPerTruckYear: must be greater than 0"
  else .ok (total, i.tonnesPerTruckYear)

/-- Embedding of `calculateFleetSize` Step 2 (lines 113–125): threshold rounding
with `ROUNDING_THRESHOLD = 0.20`, before the safety rule is applied. -/
def fleetRound (rawTrucks : ℚ) : ℤ :=
  let floorValue := Rat.floor rawTrucks
  let fractionalPart := rawTrucks - (floorValue : ℚ)
  if fractionalPart ≥ 20 / 100 then floorValue + 1 else floorValue

/-- Embedding of `calculateFleetSize` (haulCycleTime.ts lines 107–138):
raw requirement, threshold rounding, then the safety rule
(`totalMineTonnesPerYear > 0 && trucksRequired === 0` forces 1). -/
def calculateFleetSize (input : FleetSizingInput) : Except String FleetSizingResult := do
  let validated ← fleetSizingParse input
  let rawTrucks := validated.1 / validated.2
  let rounded := fleetRound rawTrucks
  let trucksRequired := if validated.1 > 0 ∧ rounded = 0 then 1 else rounded
  return { rawTrucks := rawTrucks, trucksRequired := trucksRequired }

/-! ## Haul productivity (`haulProductivity.ts`) -/

structure HaulProductivityInput where
  cycleTimeSeconds : ℚ
  payloadTonnes : ℚ
  availability : Option ℚ
  efficiency : Option ℚ
  utilization : Option ℚ
deriving DecidableEq

/-- The validated input after `HaulProductivityInputSchema.parse`: defaults
substituted for the three optional ratios. -/
structure HaulProductivityValidated where
  cycleTimeSeconds : ℚ
  payloadTonnes : ℚ
  availability : ℚ
  efficiency : ℚ
  utilization : ℚ
deriving DecidableEq

structure HaulProductivityResult where
  theoreticalCyclesPerHour : ℚ
  theoreticalCyclesPerYear : ℚ
  effectiveFactor : ℚ
  effectiveCyclesPerYear : ℚ
  tonnesPerTruckYear : ℚ
  tonnesPerHour : ℚ
deriving DecidableEq

/-- Embedding of `HaulProductivityInputSchema.parse`: `cycleTimeSeconds > 0`,
`payloadTonnes > 0`; each ratio defaults independently (availability 0.90,
efficiency 0.60, utilization 0.90) and must lie in [0, 1]. -/
def haulProductivityParse (i : HaulProductivityInput) : Except String HaulProductivityValidated :=
  if i.cycleTimeSeconds ≤ 0 then .error "cycleTimeSeconds: must be greater than 0"
  else if i.payloadTonnes ≤ 0 then .error "payloadTonnes: must be greater than 0"
  else
    let availability := i.availability.getD (90 / 100)
    let efficiency := i.efficiency.getD (60 / 100)
    let utilization := i.utilization.getD (90 / 100)
    if availability < 0 ∨ availability > 1 then .error "availability: must be between 0 and 1"
    else if efficiency < 0 ∨ efficiency > 1 then .error "efficiency: must be between 0 and 1"
    else if utilization < 0 ∨ utilization > 1 then .error "utilization: must be between 0 and 1"
    else .ok { cycleTimeSeconds := i.cycleTimeSeconds, payloadTonnes := i.payloadTonnes,
               availability := availability, efficiency := efficiency, utilization := utilization }

/-- Embedding of `calculateHaulProductivity` (haulProductivity.ts lines 68–103). -/
def calculateHaulProductivity (input : HaulProductivityInput) :
    Except String HaulProductivityResult := do
  let validated ← haulProductivityParse input
  let SECONDS_PER_HOUR : ℚ := 3600
  let HOURS_PER_YEAR : ℚ := 365 * 24
  let SECONDS_PER_YEAR : ℚ := HOURS_PER_YEAR * SECONDS_PER_HOUR
  let theoreticalCyclesPerHour := SECONDS_PER_HOUR / validated.cycleTimeSeconds
  let theoreticalCyclesPerYear := SECONDS_PER_YEAR / validated.cycleTimeSeconds
  let effectiveFactor := validated.availability * validated.efficiency * validated.utilization
  let effectiveCyclesPerYear := theoreticalCyclesPerYear * effectiveFactor
  let tonnesPerTruckYear := validated.payloadTonnes * effectiveCyclesPerYear
  let tonnesPerHour := validated.payloadTonnes * theoreticalCyclesPerHour * effectiveFactor
  return { theoreticalCyclesPerHour := theoreticalCyclesPerHour,
           theoreticalCyclesPerYear := theoreticalCyclesPerYear,
           effectiveFactor := effectiveFactor,
           effectiveCyclesPerYear := effectiveCyclesPerYear,
           tonnesPerTruckYear := tonnesPerTruckYear,
           tonnesPerHour := tonnesPerHour }

/-! ## Cost breakdown (`calcCost.ts`) -/

structure CostModelInput where
  truckPriceEUR : ℚ
  truckLicenseEURPerYear : ℚ
  includeFMS : Bool
  fmsAnnualLicenseEUR : ℚ
  fmsDeploymentOneTimeEUR : ℚ
  fmsHwOneTimeEUR : ℚ
  serviceSEKPerKm : ℚ
  fuelSEKPerKm : ℚ
  deploymentOneTimeEUR : ℚ
  fxSEKPerEUR : ℚ
deriving DecidableEq

/-- Embedding of `COST_MODEL_DEFAULTS` (calcCost.ts lines 43–54). -/
def COST_MODEL_DEFAULTS : CostModelInput :=
  { truckPriceEUR := 300000, truckLicenseEURPerYear := 50000, includeFMS := false,
    fmsAnnualLicenseEUR := 100000, fmsDeploymentOneTimeEUR := 250000,
    fmsHwOneTimeEUR := 150000, serviceSEKPerKm := 2, fuelSEKPerKm := 6,
    deploymentOneTimeEUR := 200000, fxSEKPerEUR := 11 }

structure YearlyDriver where
  year : ℤ
  fleetSize : ℚ
  kmPerYear : ℚ
deriving DecidableEq

structure YearlyCostRow where
  year : ℤ
  fleetSize : ℚ
  newTrucks : ℚ
  kmPerYear : ℚ
  capexTrucks : ℚ
  capexDeployment : ℚ
  capexFms : ℚ
  capexTotalEUR : ℚ
  opexTruckLicenseEUR : ℚ
  opexFmsLicenseEUR : ℚ
  opexTotalEUR : ℚ
  opexServiceSEK : ℚ
  opexFuelSEK : ℚ
  opexTotalSEK : ℚ
  totalCostEUR : ℚ
  totalCostSEK : ℚ
deriving DecidableEq

structure PeriodTotals where
  capexTrucksEUR : ℚ
  capexOneTimeEUR : ℚ
  capexTotalEUR : ℚ
  opexTotalEUR : ℚ
  opexTotalSEK : ℚ
  totalCostEUR : ℚ
  totalCostSEK : ℚ
deriving DecidableEq

structure CostBreakdownResult where
  rows : List YearlyCostRow
  periodTotals : PeriodTotals
deriving DecidableEq

/-- Embedding of `validateCostModel` (calcCost.ts lines 116–125): FX rate must be
> 0, then each field of `NUMERIC_COST_FIELDS` in order must not be negative.
Returns the first error message, or `none` when the model is valid. -/
def validateCostModel (model : CostModelInput) : Option String :=
  if model.fxSEKPerEUR ≤ 0 then some "FX rate (SEK per EUR) must be greater than 0"
  else if model.truckPriceEUR < 0 then some "truckPriceEUR must not be negative"
  else if model.truckLicenseEURPerYear < 0 then some "truckLicenseEURPerYear must not be negative"
  else if model.fmsAnnualLicenseEUR < 0 then some "fmsAnnualLicenseEUR must not be negative"
  else if model.fmsDeploymentOneTimeEUR < 0 then some "fmsDeploymentOneTimeEUR must not be negative"
  else if model.fmsHwOneTimeEUR < 0 then some "fmsHwOneTimeEUR must not be negative"
  else if model.serviceSEKPerKm < 0 then some "serviceSEKPerKm must not be negative"
  else if model.fuelSEKPerKm < 0 then some "fuelSEKPerKm must not be negative"
  else if model.deploymentOneTimeEUR < 0 then some "deploymentOneTimeEUR must not be negative"
  else if model.fxSEKPerEUR < 0 then some "fxSEKPerEUR must not be negative"
  else none

/-- Embedding of `validateDrivers` (calcCost.ts lines 127–136): first row with a
negative `fleetSize` or negative `kmPerYear` yields an error. -/
def validateDrivers : List YearlyDriver → Option String
  | [] => none
  | d :: rest =>
    if d.fleetSize < 0 then some "fleetSize must not be negative"
    else if d.kmPerYear < 0 then some "kmPerYear must not be negative"
    else validateDrivers rest

/-- One row of the `drivers.map` body in `calcCostBreakdown`
(calcCost.ts lines 148–197), given the previous fleet size and whether this is
the first row (`i === 0`). -/
def mkYearlyCostRow (model : CostModelInput) (prevFleet : ℚ) (isFirstYear : Bool)
    (d : YearlyDriver) : YearlyCostRow :=
  let newTrucks := max 0 (d.fleetSize - prevFleet)
  let capexTrucks := newTrucks * model.truckPriceEUR
  let capexDeployment := if isFirstYear then model.deploymentOneTimeEUR else 0
  let capexFms :=
    if isFirstYear ∧ model.includeFMS
    then model.fmsDeploymentOneTimeEUR + model.fmsHwOneTimeEUR else 0
  let capexTotalEUR := capexTrucks + capexDeployment + capexFms
  let opexTruckLicenseEUR := d.fleetSize * model.truckLicenseEURPerYear
  let opexFmsLicenseEUR := if model.includeFMS then model.fmsAnnualLicenseEUR else 0
  let opexTotalEUR := opexTruckLicenseEUR + opexFmsLicenseEUR
  let opexServiceSEK := d.kmPerYear * model.serviceSEKPerKm
  let opexFuelSEK := d.kmPerYear * model.fuelSEKPerKm
  let opexTotalSEK := opexServiceSEK + opexFuelSEK
  let totalCostEUR := capexTotalEUR + opexTotalEUR + opexTotalSEK / model.fxSEKPerEUR
  let totalCostSEK := (capexTotalEUR + opexTotalEUR) * model.fxSEKPerEUR + opexTotalSEK
  { year := d.year, fleetSize := d.fleetSize, newTrucks := newTrucks, kmPerYear := d.kmPerYear,
    capexTrucks := capexTrucks, capexDeployment := capexDeployment, capexFms := capexFms,
    capexTotalEUR := capexTotalEUR, opexTruckLicenseEUR := opexTruckLicenseEUR,
    opexFmsLicenseEUR := opexFmsLicenseEUR, opexTotalEUR := opexTotalEUR,
    opexServiceSEK := opexServiceSEK, opexFuelSEK := opexFuelSEK, opexTotalSEK := opexTotalSEK,
    totalCostEUR := totalCostEUR, totalCostSEK := totalCostSEK }

/-- The `drivers.map` loop of `calcCostBreakdown`, threading the mutable
`prevFleet` (initially 0) and the first-row flag (`i === 0`). -/
def costRows (model : CostModelInput) : ℚ → Bool → List YearlyDriver → List YearlyCostRow
  | _, _, [] => []
  | prevFleet, isFirstYear, d :: rest =>
    mkYearlyCostRow model prevFleet isFirstYear d :: costRows model d.fleetSize false rest

/-- One step of the `rows.reduce` accumulator in `calcCostBreakdown`
(calcCost.ts lines 199–219). -/
def addRowToTotals (acc : PeriodTotals) (row : YearlyCostRow) : PeriodTotals :=
  { capexTrucksEUR := acc.capexTrucksEUR + row.capexTrucks,
    capexOneTimeEUR := acc.capexOneTimeEUR + row.capexDeployment + row.capexFms,
    capexTotalEUR := acc.capexTotalEUR + row.capexTotalEUR,
    opexTotalEUR := acc.opexTotalEUR + row.opexTotalEUR,
    opexTotalSEK := acc.opexTotalSEK + row.opexTotalSEK,
    totalCostEUR := acc.totalCostEUR + row.totalCostEUR,
    totalCostSEK := acc.totalCostSEK + row.totalCostSEK }

/-- The all-zero initial accumulator of the `rows.reduce` call. -/
def zeroTotals : PeriodTotals :=
  { capexTrucksEUR := 0, capexOneTimeEUR := 0, capexTotalEUR := 0, opexTotalEUR := 0,
    opexTotalSEK := 0, totalCostEUR := 0, totalCostSEK := 0 }

/-- Embedding of `calcCostBreakdown` (calcCost.ts lines 140–222): validate the
model, then the drivers, then build the rows and fold the period totals.
A thrown `Error` is embedded as `Except.error` with the thrown message. -/
def calcCostBreakdown (model : CostModelInput) (drivers : List YearlyDriver) :
    Except String CostBreakdownResult :=
  match validateCostModel model with
  | some e => .error e
  | none =>
    match validateDrivers drivers with
    | some e => .error e
    | none =>
      let rows := costRows model 0 true drivers
      let periodTotals := rows.foldl addRowToTotals zeroTotals
      .ok { rows := rows, periodTotals := periodTotals }

/-- Specification-side recurrence for new-truck purchases, following the spec's
words: `newTrucks_y = max(0, fleetSize_y − prevFleetSize)` with the previous
fleet size 0 before the first row. Used to compare against the engine's rows. -/
def specNewTrucks : ℚ → List ℚ → List ℚ
  | _, [] => []
  | prev, f :: rest => max 0 (f - prev) :: specNewTrucks f rest

/-- The complete set of validation error messages `calcCostBreakdown` can throw;
each names the offending field. -/
def costErrorMessages : List String :=
  ["FX rate (SEK per EUR) must be greater than 0",
   "truckPriceEUR must not be negative",
   "truckLicenseEURPerYear must not be negative",
   "fmsAnnualLicenseEUR must not be negative",
   "fmsDeploymentOneTimeEUR must not be negative",
   "fmsHwOneTimeEUR must not be negative",
   "serviceSEKPerKm must not be negative",
   "fuelSEKPerKm must not be negative",
   "deploymentOneTimeEUR must not be negative",
   "fxSEKPerEUR must not be negative",
   "fleetSize must not be negative",
   "kmPerYear must not be negative"]

/-! ## Theorems -/

/-- C4: for every valid haul-route input (integer distances ≥ 0, speeds > 0,
loading and unloading times > 0), `cycleTimeSeconds` equals
`distanceLoaded / (speedLoaded*1000/3600) + distanceUnloaded / (speedUnloaded*1000/3600)
 + loadingTime + unloadingTime`, and when both distances are 0 it equals
`loadingTime + unloadingTime` exactly. -/
theorem C4_cycle_time_formula (i : HaulCycleTimeInput)
    (hL : i.distanceLoaded.isInt = true) (hL0 : 0 ≤ i.distanceLoaded)
    (hU : i.distanceUnloaded.isInt = true) (hU0 : 0 ≤ i.distanceUnloaded)
    (hsL : 0 < i.speedLoaded) (hsU : 0 < i.speedUnloaded)
    (hlt : 0 < i.loadingTime) (hut : 0 < i.unloadingTime) :
    calculateHaulCycleTime i =
      .ok ⟨i.distanceLoaded / (i.speedLoaded * 1000 / 3600)
            + i.distanceUnloaded / (i.speedUnloaded * 1000 / 3600)
            + i.loadingTime + i.unloadingTime⟩ ∧
    (i.distanceLoaded = 0 → i.distanceUnloaded = 0 →
      calculateHaulCycleTime i = .ok ⟨i.loadingTime + i.unloadingTime⟩) := by
  have hp : haulCycleTimeParse i = .ok i := by
    simp [haulCycleTimeParse, hL, hU, hL0.not_lt, hU0.not_lt, hsL.not_le, hsU.not_le,
      hlt.not_le, hut.not_le]
  have hms : i.speedLoaded * 1000 / 3600 > 0 := by positivity
  have hms2 : i.speedUnloaded * 1000 / 3600 > 0 := by positivity
  constructor
  · simp [calculateHaulCycleTime, hp, hms, hms2, hsL, hsU]
  · intro h0L h0U
    simp [calculateHaulCycleTime, hp, hms, hms2, hsL, hsU, h0L, h0U]

/-- Witness for C4 at the spec's worked example: 1450 m loaded at 25 km/h,
1450 m empty at 30 km/h, 120 s loading, 90 s unloading. -/
theorem C4_cycle_time_formula_witness :
    ((1450 : ℚ).isInt = true ∧ (0 : ℚ) ≤ 1450 ∧ (0 : ℚ) < 25 ∧ (0 : ℚ) < 30 ∧
      (0 : ℚ) < 120 ∧ (0 : ℚ) < 90) ∧
    calculateHaulCycleTime ⟨1450, 1450, 25, 30, 120, 90⟩ =
      .ok ⟨1450 / (25 * 1000 / 3600) + 1450 / (30 * 1000 / 3600) + 120 + 90⟩ := by
  have hint : (1450 : ℚ).isInt = true := by simp [Rat.isInt]
  exact ⟨⟨hint, by norm_num, by norm_num, by norm_num, by norm_num, by norm_num⟩,
    (C4_cycle_time_formula ⟨1450, 1450, 25, 30, 120, 90⟩ hint (by norm_num) hint (by norm_num)
      (by norm_num) (by norm_num) (by norm_num) (by norm_num)).1⟩

/-- The code's `Math.floor` (embedded as `Rat.floor`) agrees with the
mathematical floor on ℚ. -/
lemma ratFloor_eq_intFloor (q : ℚ) : Rat.floor q = ⌊q⌋ := rfl

/-- The threshold rounding step, restated with the mathematical floor and
fractional part: round up exactly when the fractional part is ≥ 1/5. -/
lemma fleetRound_eq_floor_fract (q : ℚ) :
    fleetRound q = if 1 / 5 ≤ Int.fract q then ⌊q⌋ + 1 else ⌊q⌋ := by
  have h20 : ((20 : ℚ) / 100 ≤ q - (⌊q⌋ : ℚ)) = (1 / 5 ≤ Int.fract q) := by
    simp only [Int.fract]
    norm_num
  simp only [fleetRound, ge_iff_le, ratFloor_eq_intFloor, h20]

/-- Evaluation of `calculateFleetSize` on a valid explicit input. -/
lemma calculateFleetSize_some (T t : ℚ) (hT : 0 ≤ T) (ht : 0 < t) :
    calculateFleetSize ⟨some T, t⟩ =
      .ok ⟨T / t, if 0 < T ∧ fleetRound (T / t) = 0 then 1 else fleetRound (T / t)⟩ := by
  simp [calculateFleetSize, fleetSizingParse, hT.not_lt, ht.not_le]

/-- C2: for every valid fleet-sizing input, the rounding step before the safety
floor gives `⌊rawTrucks⌋ + 1` when the fractional part is ≥ 0.20 and `⌊rawTrucks⌋`
otherwise (fractional part exactly 0.20 rounds up); concretely,
rawTrucks 7.19 → 7, 7.20 → 8, 7.50 → 8, 5.199 → 5, 5.200 → 6, and 0.20 → 1. -/
theorem C2_threshold_rounding (T t : ℚ) (ht : 0 < t) (hT : 0 ≤ T) :
    (∃ res, calculateFleetSize ⟨some T, t⟩ = .ok res ∧ res.rawTrucks = T / t ∧
      res.trucksRequired =
        (if 0 < T ∧ fleetRound (T / t) = 0 then 1 else fleetRound (T / t)) ∧
      fleetRound (T / t) =
        (if 1 / 5 ≤ Int.fract (T / t) then ⌊T / t⌋ + 1 else ⌊T / t⌋)) ∧
    calculateFleetSize ⟨some (719 / 100), 1⟩ = .ok ⟨719 / 100, 7⟩ ∧
    calculateFleetSize ⟨some (72 / 10), 1⟩ = .ok ⟨72 / 10, 8⟩ ∧
    calculateFleetSize ⟨some (75 / 10), 1⟩ = .ok ⟨75 / 10, 8⟩ ∧
    calculateFleetSize ⟨some (5199 / 1000), 1⟩ = .ok ⟨5199 / 1000, 5⟩ ∧
    calculateFleetSize ⟨some (52 / 10), 1⟩ = .ok ⟨52 / 10, 6⟩ ∧
    calculateFleetSize ⟨some (2 / 10), 1⟩ = .ok ⟨2 / 10, 1⟩ := by
  refine ⟨⟨_, calculateFleetSize_some T t hT ht, rfl, rfl, fleetRound_eq_floor_fract _⟩,
    ?_, ?_, ?_, ?_, ?_, ?_⟩ <;>
  · rw [calculateFleetSize_some _ _ (by norm_num) (by norm_num), fleetRound_eq_floor_fract]
    norm_num [Int.fract]

/-- Witness for C2 at rawTrucks = 7.19 (719 tonnes over 100 tonnes per truck). -/
theorem C2_threshold_rounding_witness :
    ((0 : ℚ) < 100 ∧ (0 : ℚ) ≤ 719) ∧
    ∃ res, calculateFleetSize ⟨some 719, 100⟩ = .ok res ∧ res.rawTrucks = 719 / 100 := by
  refine ⟨⟨by norm_num, by norm_num⟩, ?_⟩
  obtain ⟨res, h1, h2, -⟩ := (C2_threshold_rounding 719 100 (by norm_num) (by norm_num)).1
  exact ⟨res, h1, h2⟩

/-- C3: for every valid fleet-sizing input, `trucksRequired ≥ 1` whenever the
production target is positive (the safety floor), and `trucksRequired = 0` if
and only if the production target is 0. -/
theorem C3_safety_floor (T t : ℚ) (ht : 0 < t) (hT : 0 ≤ T) :
    ∃ res, calculateFleetSize ⟨some T, t⟩ = .ok res ∧
      (0 < T → 1 ≤ res.trucksRequired) ∧ (res.trucksRequired = 0 ↔ T = 0) := by
  have hr0 : 0 ≤ fleetRound (T / t) := by
    rw [fleetRound_eq_floor_fract]
    have h := Int.floor_nonneg.mpr (div_nonneg hT ht.le)
    split_ifs <;> omega
  refine ⟨_, calculateFleetSize_some T t hT ht, ?_, ?_⟩
  · intro hTpos
    show 1 ≤ (if 0 < T ∧ fleetRound (T / t) = 0 then 1 else fleetRound (T / t))
    by_cases hc : 0 < T ∧ fleetRound (T / t) = 0
    · simp [hc]
    · rw [if_neg hc]
      have hne : fleetRound (T / t) ≠ 0 := fun h => hc ⟨hTpos, h⟩
      omega
  · show (if 0 < T ∧ fleetRound (T / t) = 0 then 1 else fleetRound (T / t)) = 0 ↔ T = 0
    constructor
    · intro h0
      by_contra hne
      have hTpos : 0 < T := lt_of_le_of_ne hT (Ne.symm hne)
      by_cases hc : 0 < T ∧ fleetRound (T / t) = 0
      · simp [hc] at h0
      · rw [if_neg hc] at h0
        exact hc ⟨hTpos, h0⟩
    · intro h0
      subst h0
      have hfr : fleetRound (0 : ℚ) = 0 := by
        rw [fleetRound_eq_floor_fract]
        norm_num [Int.fract]
      simp [zero_div, hfr]

/-- Witness for C3 at the spec's safety-floor example: 190,000 tonnes target and
1,000,000 tonnes per truck (rawTrucks = 0.19) still requires 1 truck. -/
theorem C3_safety_floor_witness :
    ((0 : ℚ) < 1000000 ∧ (0 : ℚ) ≤ 190000) ∧
    ∃ res, calculateFleetSize ⟨some 190000, 1000000⟩ = .ok res ∧
      ((0 : ℚ) < 190000 → 1 ≤ res.trucksRequired) ∧
      (res.trucksRequired = 0 ↔ (190000 : ℚ) = 0) :=
  ⟨⟨by norm_num, by norm_num⟩, C3_safety_floor 190000 1000000 (by norm_num) (by norm_num)⟩

/-- A defaulted optional ratio stays in [0, 1] when the default does and any
supplied value does. -/
lemma getD_bounds (d : ℚ) {o : Option ℚ} (hd0 : 0 ≤ d) (hd1 : d ≤ 1)
    (h : ∀ x ∈ o, 0 ≤ x ∧ x ≤ 1) : 0 ≤ o.getD d ∧ o.getD d ≤ 1 := by
  cases o with
  | none => exact ⟨hd0, hd1⟩
  | some x => simpa using h x rfl

/-- C5: for every valid productivity input, each omitted ratio independently
defaults (availability 0.90, efficiency 0.60, utilization 0.90),
`effectiveFactor` is the product of the three ratios and lies in [0, 1],
`theoreticalCyclesPerYear` uses a fixed 365×24×3600-second year,
`effectiveCyclesPerYear = theoreticalCyclesPerYear × effectiveFactor` and
`tonnesPerTruckYear = payloadTonnes × effectiveCyclesPerYear`. -/
theorem C5_productivity_factors (i : HaulProductivityInput)
    (h1 : 0 < i.cycleTimeSeconds) (h2 : 0 < i.payloadTonnes)
    (ha : ∀ a ∈ i.availability, 0 ≤ a ∧ a ≤ 1)
    (he : ∀ e ∈ i.efficiency, 0 ≤ e ∧ e ≤ 1)
    (hu : ∀ u ∈ i.utilization, 0 ≤ u ∧ u ≤ 1) :
    ∃ res, calculateHaulProductivity i = .ok res ∧
      res.effectiveFactor =
        i.availability.getD (90 / 100) * i.efficiency.getD (60 / 100) *
          i.utilization.getD (90 / 100) ∧
      0 ≤ res.effectiveFactor ∧ res.effectiveFactor ≤ 1 ∧
      res.theoreticalCyclesPerYear = 365 * 24 * 3600 / i.cycleTimeSeconds ∧
      res.effectiveCyclesPerYear = res.theoreticalCyclesPerYear * res.effectiveFactor ∧
      res.tonnesPerTruckYear = i.payloadTonnes * res.effectiveCyclesPerYear := by
  obtain ⟨ha0, ha1⟩ := getD_bounds (90 / 100) (by norm_num) (by norm_num) ha
  obtain ⟨he0, he1⟩ := getD_bounds (60 / 100) (by norm_num) (by norm_num) he
  obtain ⟨hu0, hu1⟩ := getD_bounds (90 / 100) (by norm_num) (by norm_num) hu
  have hparse : haulProductivityParse i = .ok
      ⟨i.cycleTimeSeconds, i.payloadTonnes, i.availability.getD (90 / 100),
       i.efficiency.getD (60 / 100), i.utilization.getD (90 / 100)⟩ := by
    simp [haulProductivityParse, h1.not_le, h2.not_le, ha0.not_lt, ha1.not_lt,
      he0.not_lt, he1.not_lt, hu0.not_lt, hu1.not_lt]
  refine ⟨⟨3600 / i.cycleTimeSeconds,
           365 * 24 * 3600 / i.cycleTimeSeconds,
           i.availability.getD (90 / 100) * i.efficiency.getD (60 / 100) *
             i.utilization.getD (90 / 100),
           365 * 24 * 3600 / i.cycleTimeSeconds *
             (i.availability.getD (90 / 100) * i.efficiency.getD (60 / 100) *
               i.utilization.getD (90 / 100)),
           i.payloadTonnes *
             (365 * 24 * 3600 / i.cycleTimeSeconds *
               (i.availability.getD (90 / 100) * i.efficiency.getD (60 / 100) *
                 i.utilization.getD (90 / 100))),
           i.payloadTonnes * (3600 / i.cycleTimeSeconds) *
             (i.availability.getD (90 / 100) * i.efficiency.getD (60 / 100) *
               i.utilization.getD (90 / 100))⟩,
    ?_, rfl, ?_, ?_, rfl, rfl, rfl⟩
  · unfold calculateHaulProductivity
    rw [hparse]
    rfl
  · exact mul_nonneg (mul_nonneg ha0 he0) hu0
  · nlinarith [mul_nonneg ha0 he0, mul_nonneg he0 hu0, mul_nonneg ha0 hu0]

/-- Witness for C5 at the spec's worked example: cycle time 600 s, payload
150 t, availability 0.90, efficiency 0.65, utilization 0.85. -/
theorem C5_productivity_factors_witness :
    ((0 : ℚ) < 600 ∧ (0 : ℚ) < 150 ∧
      (∀ a ∈ (some (9 / 10) : Option ℚ), 0 ≤ a ∧ a ≤ 1) ∧
      (∀ e ∈ (some (65 / 100) : Option ℚ), 0 ≤ e ∧ e ≤ 1) ∧
      (∀ u ∈ (some (85 / 100) : Option ℚ), 0 ≤ u ∧ u ≤ 1)) ∧
    ∃ res, calculateHaulProductivity ⟨600, 150, some (9 / 10), some (65 / 100),
        some (85 / 100)⟩ = .ok res ∧
      res.effectiveFactor =
        (some (9 / 10) : Option ℚ).getD (90 / 100) *
          (some (65 / 100) : Option ℚ).getD (60 / 100) *
          (some (85 / 100) : Option ℚ).getD (90 / 100) ∧
      0 ≤ res.effectiveFactor ∧ res.effectiveFactor ≤ 1 ∧
      res.theoreticalCyclesPerYear = 365 * 24 * 3600 / (600 : ℚ) ∧
      res.effectiveCyclesPerYear = res.theoreticalCyclesPerYear * res.effectiveFactor ∧
      res.tonnesPerTruckYear = 150 * res.effectiveCyclesPerYear := by
  have ha : ∀ a ∈ (some (9 / 10) : Option ℚ), 0 ≤ a ∧ a ≤ 1 := by
    intro a haa
    simp only [Option.mem_def, Option.some.injEq] at haa
    subst haa
    constructor <;> norm_num
  have he : ∀ e ∈ (some (65 / 100) : Option ℚ), 0 ≤ e ∧ e ≤ 1 := by
    intro e hee
    simp only [Option.mem_def, Option.some.injEq] at hee
    subst hee
    constructor <;> norm_num
  have hu : ∀ u ∈ (some (85 / 100) : Option ℚ), 0 ≤ u ∧ u ≤ 1 := by
    intro u huu
    simp only [Option.mem_def, Option.some.injEq] at huu
    subst huu
    constructor <;> norm_num
  exact ⟨⟨by norm_num, by norm_num, ha, he, hu⟩,
    C5_productivity_factors ⟨600, 150, some (9 / 10), some (65 / 100), some (85 / 100)⟩
      (by norm_num) (by norm_num) ha he hu⟩

/-- C10: `calculateHaulCycleTime` rejects any input whose `distanceLoaded` or
`distanceUnloaded` is not an integer, regardless of the other fields. -/
theorem C10_noninteger_distance_rejected (i : HaulCycleTimeInput)
    (h : i.distanceLoaded.isInt = false ∨ i.distanceUnloaded.isInt = false) :
    ∃ e, calculateHaulCycleTime i = .error e := by
  have hp : ∃ e, haulCycleTimeParse i = .error e := by
    unfold haulCycleTimeParse
    split_ifs <;> simp_all
  obtain ⟨e, he⟩ := hp
  exact ⟨e, by simp [calculateHaulCycleTime, he]⟩

/-- Witness for C10: 1450.5 m loaded distance is rejected even though it is
positive and every other field is valid. -/
theorem C10_noninteger_distance_rejected_witness :
    ((2901 : ℚ) / 2).isInt = false ∧
    ∃ e, calculateHaulCycleTime ⟨2901 / 2, 1450, 25, 30, 120, 90⟩ = .error e := by
  have hni : ((2901 : ℚ) / 2).isInt = false := by
    simp [Rat.isInt]
    norm_num [Rat.den]
  exact ⟨hni, C10_noninteger_distance_rejected ⟨2901 / 2, 1450, 25, 30, 120, 90⟩ (Or.inl hni)⟩

/-- Model validation succeeds exactly when the exchange rate is positive and no
monetary field is negative. -/
lemma validateCostModel_none_iff (m : CostModelInput) :
    validateCostModel m = none ↔
      (0 < m.fxSEKPerEUR ∧ 0 ≤ m.truckPriceEUR ∧ 0 ≤ m.truckLicenseEURPerYear ∧
       0 ≤ m.fmsAnnualLicenseEUR ∧ 0 ≤ m.fmsDeploymentOneTimeEUR ∧
       0 ≤ m.fmsHwOneTimeEUR ∧ 0 ≤ m.serviceSEKPerKm ∧ 0 ≤ m.fuelSEKPerKm ∧
       0 ≤ m.deploymentOneTimeEUR) := by
  constructor
  · intro h
    unfold validateCostModel at h
    split_ifs at h with h1 h2 h3 h4 h5 h6 h7 h8 h9 h10
    push_neg at h1 h2 h3 h4 h5 h6 h7 h8 h9
    exact ⟨h1, h2, h3, h4, h5, h6, h7, h8, h9⟩
  · rintro ⟨hfx, hp, hl, hfa, hfd, hfh, hs, hf, hd⟩
    unfold validateCostModel
    rw [if_neg hfx.not_le, if_neg hp.not_lt, if_neg hl.not_lt, if_neg hfa.not_lt,
      if_neg hfd.not_lt, if_neg hfh.not_lt, if_neg hs.not_lt, if_neg hf.not_lt,
      if_neg hd.not_lt, if_neg (lt_asymm hfx)]

/-- Driver validation succeeds exactly when every row has non-negative
`fleetSize` and `kmPerYear`. -/
lemma validateDrivers_none_iff (ds : List YearlyDriver) :
    validateDrivers ds = none ↔ ∀ d ∈ ds, 0 ≤ d.fleetSize ∧ 0 ≤ d.kmPerYear := by
  induction ds with
  | nil => simp [validateDrivers]
  | cons d rest ih =>
    unfold validateDrivers
    split_ifs with h1 h2
    · simp [List.forall_mem_cons, not_le.mpr h1]
    · simp [List.forall_mem_cons, not_le.mpr h2]
    · rw [ih]
      simp [List.forall_mem_cons, not_lt.mp h1, not_lt.mp h2]

/-- On validated inputs, `calcCostBreakdown` produces the rows and the fold over
them. -/
lemma calcCostBreakdown_ok (m : CostModelInput) (ds : List YearlyDriver)
    (hm : validateCostModel m = none) (hd : validateDrivers ds = none) :
    calcCostBreakdown m ds =
      .ok ⟨costRows m 0 true ds, (costRows m 0 true ds).foldl addRowToTotals zeroTotals⟩ := by
  simp [calcCostBreakdown, hm, hd]

/-- Every row produced by the map loop is the image of some driver under
`mkYearlyCostRow`. -/
lemma mem_costRows {m : CostModelInput} {row : YearlyCostRow} :
    ∀ {pf : ℚ} {isF : Bool} {ds : List YearlyDriver}, row ∈ costRows m pf isF ds →
      ∃ pf' isF' d, row = mkYearlyCostRow m pf' isF' d := by
  intro pf isF ds
  induction ds generalizing pf isF with
  | nil => intro h; simp [costRows] at h
  | cons d rest ih =>
    intro h
    rw [costRows] at h
    rcases List.mem_cons.mp h with h | h
    · exact ⟨pf, isF, d, h⟩
    · exact ih h

/-- Every `calcCostBreakdown` result decomposes into validated model/drivers and
the explicit rows/totals. -/
lemma calcCostBreakdown_ok_inv {m : CostModelInput} {ds : List YearlyDriver}
    {res : CostBreakdownResult} (h : calcCostBreakdown m ds = .ok res) :
    validateCostModel m = none ∧ validateDrivers ds = none ∧
      res = ⟨costRows m 0 true ds, (costRows m 0 true ds).foldl addRowToTotals zeroTotals⟩ := by
  cases hm : validateCostModel m with
  | some e => rw [calcCostBreakdown, hm] at h; exact absurd h (by simp)
  | none =>
    cases hd : validateDrivers ds with
    | some e => rw [calcCostBreakdown, hm] at h; simp [hd] at h
    | none =>
      rw [calcCostBreakdown_ok m ds hm hd] at h
      exact ⟨rfl, rfl, (Except.ok.inj h).symm⟩

/-- C1: for every valid cost model and driver sequence, every output row
satisfies `totalCostEUR = capexTotalEUR + opexTotalEUR + opexTotalSEK / fxSEKPerEUR`,
`totalCostSEK = (capexTotalEUR + opexTotalEUR) × fxSEKPerEUR + opexTotalSEK`, and
the exact currency identity `totalCostSEK = totalCostEUR × fxSEKPerEUR`. -/
theorem C1_currency_identity (m : CostModelInput) (ds : List YearlyDriver)
    (res : CostBreakdownResult) (h : calcCostBreakdown m ds = .ok res) :
    ∀ row ∈ res.rows,
      row.totalCostEUR =
        row.capexTotalEUR + row.opexTotalEUR + row.opexTotalSEK / m.fxSEKPerEUR ∧
      row.totalCostSEK =
        (row.capexTotalEUR + row.opexTotalEUR) * m.fxSEKPerEUR + row.opexTotalSEK ∧
      row.totalCostSEK = row.totalCostEUR * m.fxSEKPerEUR := by
  obtain ⟨hm, hd, rfl⟩ := calcCostBreakdown_ok_inv h
  have hfx : 0 < m.fxSEKPerEUR := ((validateCostModel_none_iff m).mp hm).1
  have hfx0 : m.fxSEKPerEUR ≠ 0 := ne_of_gt hfx
  intro row hrow
  obtain ⟨pf, isF, d, rfl⟩ := mem_costRows hrow
  refine ⟨rfl, rfl, ?_⟩
  simp only [mkYearlyCostRow]
  field_simp

/-- Witness for C1: default cost model with a single driver row (fleet 2,
100 km). -/
theorem C1_currency_identity_witness :
    ∃ res, calcCostBreakdown COST_MODEL_DEFAULTS [⟨2025, 2, 100⟩] = .ok res ∧
      ∀ row ∈ res.rows,
        row.totalCostEUR = row.capexTotalEUR + row.opexTotalEUR +
          row.opexTotalSEK / COST_MODEL_DEFAULTS.fxSEKPerEUR ∧
        row.totalCostSEK = (row.capexTotalEUR + row.opexTotalEUR) *
          COST_MODEL_DEFAULTS.fxSEKPerEUR + row.opexTotalSEK ∧
        row.totalCostSEK = row.totalCostEUR * COST_MODEL_DEFAULTS.fxSEKPerEUR := by
  have hm : validateCostModel COST_MODEL_DEFAULTS = none := by
    norm_num [validateCostModel, COST_MODEL_DEFAULTS]
  have hd : validateDrivers [⟨2025, 2, 100⟩] = none := by
    norm_num [validateDrivers]
  have h := calcCostBreakdown_ok COST_MODEL_DEFAULTS [⟨2025, 2, 100⟩] hm hd
  exact ⟨_, h, C1_currency_identity COST_MODEL_DEFAULTS [⟨2025, 2, 100⟩] _ h⟩

/-- The map loop's per-row `newTrucks` values follow the spec's recurrence. -/
lemma costRows_map_newTrucks (m : CostModelInput) :
    ∀ (pf : ℚ) (isF : Bool) (ds : List YearlyDriver),
      (costRows m pf isF ds).map (fun r => r.newTrucks) =
        specNewTrucks pf (ds.map (fun d => d.fleetSize)) := by
  intro pf isF ds
  induction ds generalizing pf isF with
  | nil => simp [costRows, specNewTrucks]
  | cons d rest ih => simp [costRows, specNewTrucks, mkYearlyCostRow, ih]

/-- C6: each row's `newTrucks` equals `max(0, fleetSize − previous fleetSize)`
(previous fleet size 0 for the first row), and is never negative, including
when the fleet shrinks. -/
theorem C6_new_trucks_nonneg (m : CostModelInput) (ds : List YearlyDriver)
    (res : CostBreakdownResult) (h : calcCostBreakdown m ds = .ok res) :
    res.rows.map (fun r => r.newTrucks) =
      specNewTrucks 0 (ds.map (fun d => d.fleetSize)) ∧
    ∀ row ∈ res.rows, 0 ≤ row.newTrucks := by
  obtain ⟨hm, hd, rfl⟩ := calcCostBreakdown_ok_inv h
  refine ⟨costRows_map_newTrucks m 0 true ds, ?_⟩
  intro row hrow
  obtain ⟨pf, isF, d, rfl⟩ := mem_costRows hrow
  simp only [mkYearlyCostRow]
  exact le_max_left 0 _

/-- Witness for C6: a shrinking fleet (3 trucks, then 2) yields newTrucks
[3, 0], both non-negative. -/
theorem C6_new_trucks_nonneg_witness :
    ∃ res, calcCostBreakdown COST_MODEL_DEFAULTS [⟨2025, 3, 100⟩, ⟨2026, 2, 50⟩] = .ok res ∧
      res.rows.map (fun r => r.newTrucks) =
        specNewTrucks 0 ([⟨2025, 3, 100⟩, ⟨2026, 2, 50⟩].map (fun d : YearlyDriver => d.fleetSize)) ∧
      ∀ row ∈ res.rows, 0 ≤ row.newTrucks := by
  have hm : validateCostModel COST_MODEL_DEFAULTS = none := by
    norm_num [validateCostModel, COST_MODEL_DEFAULTS]
  have hd : validateDrivers [⟨2025, 3, 100⟩, ⟨2026, 2, 50⟩] = none := by
    norm_num [validateDrivers]
  have h := calcCostBreakdown_ok COST_MODEL_DEFAULTS [⟨2025, 3, 100⟩, ⟨2026, 2, 50⟩] hm hd
  exact ⟨_, h, C6_new_trucks_nonneg COST_MODEL_DEFAULTS [⟨2025, 3, 100⟩, ⟨2026, 2, 50⟩] _ h⟩

/-- The fold's `capexTrucksEUR` accumulates the per-row `capexTrucks` sum. -/
lemma foldl_capexTrucks (rows : List YearlyCostRow) : ∀ acc : PeriodTotals,
    (rows.foldl addRowToTotals acc).capexTrucksEUR =
      acc.capexTrucksEUR + (rows.map (fun r => r.capexTrucks)).sum := by
  induction rows with
  | nil => intro acc; simp
  | cons r rest ih => intro acc; simp [ih, addRowToTotals]; ring

/-- The fold's `capexOneTimeEUR` accumulates deployment plus FMS CAPEX. -/
lemma foldl_capexOneTime (rows : List YearlyCostRow) : ∀ acc : PeriodTotals,
    (rows.foldl addRowToTotals acc).capexOneTimeEUR =
      acc.capexOneTimeEUR + (rows.map (fun r => r.capexDeployment + r.capexFms)).sum := by
  induction rows with
  | nil => intro acc; simp
  | cons r rest ih => intro acc; simp [ih, addRowToTotals]; ring

/-- The fold's `capexTotalEUR` accumulates the per-row `capexTotalEUR` sum. -/
lemma foldl_capexTotal (rows : List YearlyCostRow) : ∀ acc : PeriodTotals,
    (rows.foldl addRowToTotals acc).capexTotalEUR =
      acc.capexTotalEUR + (rows.map (fun r => r.capexTotalEUR)).sum := by
  induction rows with
  | nil => intro acc; simp
  | cons r rest ih => intro acc; simp [ih, addRowToTotals]; ring

/-- The fold's `opexTotalEUR` accumulates the per-row `opexTotalEUR` sum. -/
lemma foldl_opexTotalEUR (rows : List YearlyCostRow) : ∀ acc : PeriodTotals,
    (rows.foldl addRowToTotals acc).opexTotalEUR =
      acc.opexTotalEUR + (rows.map (fun r => r.opexTotalEUR)).sum := by
  induction rows with
  | nil => intro acc; simp
  | cons r rest ih => intro acc; simp [ih, addRowToTotals]; ring

/-- The fold's `opexTotalSEK` accumulates the per-row `opexTotalSEK` sum. -/
lemma foldl_opexTotalSEK (rows : List YearlyCostRow) : ∀ acc : PeriodTotals,
    (rows.foldl addRowToTotals acc).opexTotalSEK =
      acc.opexTotalSEK + (rows.map (fun r => r.opexTotalSEK)).sum := by
  induction rows with
  | nil => intro acc; simp
  | cons r rest ih => intro acc; simp [ih, addRowToTotals]; ring

/-- The fold's `totalCostEUR` accumulates the per-row `totalCostEUR` sum. -/
lemma foldl_totalCostEUR (rows : List YearlyCostRow) : ∀ acc : PeriodTotals,
    (rows.foldl addRowToTotals acc).totalCostEUR =
      acc.totalCostEUR + (rows.map (fun r => r.totalCostEUR)).sum := by
  induction rows with
  | nil => intro acc; simp
  | cons r rest ih => intro acc; simp [ih, addRowToTotals]; ring

/-- The fold's `totalCostSEK` accumulates the per-row `totalCostSEK` sum. -/
lemma foldl_totalCostSEK (rows : List YearlyCostRow) : ∀ acc : PeriodTotals,
    (rows.foldl addRowToTotals acc).totalCostSEK =
      acc.totalCostSEK + (rows.map (fun r => r.totalCostSEK)).sum := by
  induction rows with
  | nil => intro acc; simp
  | cons r rest ih => intro acc; simp [ih, addRowToTotals]; ring

/-- C7: `periodTotals` is the component-wise sum across all output rows of every
field, and the empty driver sequence yields empty rows and all-zero totals. -/
theorem C7_period_totals_sum (m : CostModelInput) (ds : List YearlyDriver)
    (res : CostBreakdownResult) (h : calcCostBreakdown m ds = .ok res) :
    res.periodTotals.capexTrucksEUR = (res.rows.map (fun r => r.capexTrucks)).sum ∧
    res.periodTotals.capexOneTimeEUR =
      (res.rows.map (fun r => r.capexDeployment + r.capexFms)).sum ∧
    res.periodTotals.capexTotalEUR = (res.rows.map (fun r => r.capexTotalEUR)).sum ∧
    res.periodTotals.opexTotalEUR = (res.rows.map (fun r => r.opexTotalEUR)).sum ∧
    res.periodTotals.opexTotalSEK = (res.rows.map (fun r => r.opexTotalSEK)).sum ∧
    res.periodTotals.totalCostEUR = (res.rows.map (fun r => r.totalCostEUR)).sum ∧
    res.periodTotals.totalCostSEK = (res.rows.map (fun r => r.totalCostSEK)).sum ∧
    (ds = [] → res.rows = [] ∧ res.periodTotals = zeroTotals) := by
  obtain ⟨hm, hd, rfl⟩ := calcCostBreakdown_ok_inv h
  refine ⟨?_, ?_, ?_, ?_, ?_, ?_, ?_, ?_⟩
  · simp [foldl_capexTrucks, zeroTotals]
  · simp [foldl_capexOneTime, zeroTotals]
  · simp [foldl_capexTotal, zeroTotals]
  · simp [foldl_opexTotalEUR, zeroTotals]
  · simp [foldl_opexTotalSEK, zeroTotals]
  · simp [foldl_totalCostEUR, zeroTotals]
  · simp [foldl_totalCostSEK, zeroTotals]
  · rintro rfl
    simp [costRows]

/-- Witness for C7: default model with a two-year driver sequence. -/
theorem C7_period_totals_sum_witness :
    ∃ res, calcCostBreakdown COST_MODEL_DEFAULTS [⟨2025, 1, 10⟩, ⟨2026, 4, 20⟩] = .ok res ∧
      res.periodTotals.totalCostEUR = (res.rows.map (fun r => r.totalCostEUR)).sum ∧
      res.periodTotals.totalCostSEK = (res.rows.map (fun r => r.totalCostSEK)).sum := by
  have hm : validateCostModel COST_MODEL_DEFAULTS = none := by
    norm_num [validateCostModel, COST_MODEL_DEFAULTS]
  have hd : validateDrivers [⟨2025, 1, 10⟩, ⟨2026, 4, 20⟩] = none := by
    norm_num [validateDrivers]
  have h := calcCostBreakdown_ok COST_MODEL_DEFAULTS [⟨2025, 1, 10⟩, ⟨2026, 4, 20⟩] hm hd
  obtain ⟨-, -, -, -, -, h6, h7, -⟩ :=
    C7_period_totals_sum COST_MODEL_DEFAULTS [⟨2025, 1, 10⟩, ⟨2026, 4, 20⟩] _ h
  exact ⟨_, h, h6, h7⟩

/-- Every model-validation error message is in the catalogue of field-naming
messages. -/
lemma validateCostModel_mem (m : CostModelInput) (e : String)
    (h : validateCostModel m = some e) : e ∈ costErrorMessages := by
  unfold validateCostModel at h
  split_ifs at h <;> (obtain rfl := Option.some.inj h; simp [costErrorMessages])

/-- Every driver-validation error message is in the catalogue of field-naming
messages. -/
lemma validateDrivers_mem : ∀ (ds : List YearlyDriver) (e : String),
    validateDrivers ds = some e → e ∈ costErrorMessages := by
  intro ds
  induction ds with
  | nil => intro e h; simp [validateDrivers] at h
  | cons d rest ih =>
    intro e h
    unfold validateDrivers at h
    split_ifs at h
    · obtain rfl := Option.some.inj h
      simp [costErrorMessages]
    · obtain rfl := Option.some.inj h
      simp [costErrorMessages]
    · exact ih e h

/-- C8: `calcCostBreakdown` succeeds exactly when the exchange rate is positive,
none of the nine monetary fields is negative, and no driver row has negative
`fleetSize` or `kmPerYear`; every failure carries one of the field-naming
error messages, and validation failure yields no rows or totals. -/
theorem C8_validation_exact (m : CostModelInput) (ds : List YearlyDriver) :
    ((∃ r, calcCostBreakdown m ds = .ok r) ↔
      (0 < m.fxSEKPerEUR ∧ 0 ≤ m.truckPriceEUR ∧ 0 ≤ m.truckLicenseEURPerYear ∧
       0 ≤ m.fmsAnnualLicenseEUR ∧ 0 ≤ m.fmsDeploymentOneTimeEUR ∧
       0 ≤ m.fmsHwOneTimeEUR ∧ 0 ≤ m.serviceSEKPerKm ∧ 0 ≤ m.fuelSEKPerKm ∧
       0 ≤ m.deploymentOneTimeEUR ∧
       ∀ d ∈ ds, 0 ≤ d.fleetSize ∧ 0 ≤ d.kmPerYear)) ∧
    ∀ e, calcCostBreakdown m ds = .error e → e ∈ costErrorMessages := by
  constructor
  · constructor
    · rintro ⟨r, hr⟩
      obtain ⟨hm, hd, -⟩ := calcCostBreakdown_ok_inv hr
      obtain ⟨h1, h2, h3, h4, h5, h6, h7, h8, h9⟩ := (validateCostModel_none_iff m).mp hm
      exact ⟨h1, h2, h3, h4, h5, h6, h7, h8, h9, (validateDrivers_none_iff ds).mp hd⟩
    · rintro ⟨h1, h2, h3, h4, h5, h6, h7, h8, h9, hdr⟩
      have hm := (validateCostModel_none_iff m).mpr ⟨h1, h2, h3, h4, h5, h6, h7, h8, h9⟩
      have hd := (validateDrivers_none_iff ds).mpr hdr
      exact ⟨_, calcCostBreakdown_ok m ds hm hd⟩
  · intro e he
    cases hm : validateCostModel m with
    | some e' =>
      rw [calcCostBreakdown, hm] at he
      obtain rfl := (Except.error.inj he).symm
      exact validateCostModel_mem m e hm
    | none =>
      cases hd : validateDrivers ds with
      | some e' =>
        rw [calcCostBreakdown, hm] at he
        simp only [hd] at he
        obtain rfl := (Except.error.inj he).symm
        exact validateDrivers_mem ds e hd
      | none =>
        rw [calcCostBreakdown_ok m ds hm hd] at he
        exact absurd he (by simp)

/-- Witness for C8: a driver row with fleetSize −1 is rejected with the message
naming `fleetSize`, and that message is in the catalogue. -/
theorem C8_validation_exact_witness :
    calcCostBreakdown COST_MODEL_DEFAULTS [⟨2025, -1, 0⟩] =
      .error "fleetSize must not be negative" ∧
    "fleetSize must not be negative" ∈ costErrorMessages := by
  have herr : calcCostBreakdown COST_MODEL_DEFAULTS [⟨2025, -1, 0⟩] =
      .error "fleetSize must not be negative" := by
    have hm : validateCostModel COST_MODEL_DEFAULTS = none := by
      norm_num [validateCostModel, COST_MODEL_DEFAULTS]
    rw [calcCostBreakdown, hm]
    norm_num [validateDrivers]
  exact ⟨herr, (C8_validation_exact COST_MODEL_DEFAULTS [⟨2025, -1, 0⟩]).2 _ herr⟩

/-- C9: a non-negative, non-integer `fleetSize` (such as 2.5) passes validation
and flows unchanged into `newTrucks`, `capexTrucks`, and `opexTruckLicenseEUR`. -/
theorem C9_fractional_fleet_accepted (q : ℚ) (h0 : 0 ≤ q) (_hni : q.isInt = false) :
    ∃ res, calcCostBreakdown COST_MODEL_DEFAULTS [⟨2025, q, 0⟩] = .ok res ∧
      res.rows.map (fun r => r.newTrucks) = [q] ∧
      res.rows.map (fun r => r.capexTrucks) = [q * 300000] ∧
      res.rows.map (fun r => r.opexTruckLicenseEUR) = [q * 50000] := by
  have hm : validateCostModel COST_MODEL_DEFAULTS = none := by
    norm_num [validateCostModel, COST_MODEL_DEFAULTS]
  have hd : validateDrivers [⟨2025, q, 0⟩] = none := by
    simp [validateDrivers, h0.not_lt]
  refine ⟨_, calcCostBreakdown_ok COST_MODEL_DEFAULTS [⟨2025, q, 0⟩] hm hd, ?_, ?_, ?_⟩ <;>
    simp [costRows, mkYearlyCostRow, COST_MODEL_DEFAULTS, sub_zero, max_eq_right h0]

/-- Witness for C9 at fleetSize 2.5. -/
theorem C9_fractional_fleet_accepted_witness :
    ((0 : ℚ) ≤ 5 / 2 ∧ ((5 : ℚ) / 2).isInt = false) ∧
    ∃ res, calcCostBreakdown COST_MODEL_DEFAULTS [⟨2025, 5 / 2, 0⟩] = .ok res ∧
      res.rows.map (fun r => r.newTrucks) = [(5 : ℚ) / 2] ∧
      res.rows.map (fun r => r.capexTrucks) = [(5 : ℚ) / 2 * 300000] ∧
      res.rows.map (fun r => r.opexTruckLicenseEUR) = [(5 : ℚ) / 2 * 50000] := by
  have hni : ((5 : ℚ) / 2).isInt = false := by
    simp [Rat.isInt]
    norm_num [Rat.den]
  exact ⟨⟨by norm_num, hni⟩, C9_fractional_fleet_accepted (5 / 2) (by norm_num) hni⟩

end Presales
